import Mathlib

/-!
Shallow embedding of src/src/videofilters/generic_opengl_display.c
(the MSOGL generic OpenGL video display filter of mediastreamer2).

The embedding follows the C source line by line.  External calls into the
opengles_display renderer library (ogl_display_new / free / init /
set_yuv_to_display / render / zoom), the yuv helpers and the logging calls
are recorded as events in a trace; the instance mutex is modelled as an
acquisition counter on the filter (ms_filter_lock increments it,
ms_filter_unlock decrements it), which is faithful for the sequential
executions the claims quantify over.
-/

namespace OglDisplay

/-- struct _ContextInfo: width and height of the bound GL surface. -/
structure ContextInfo where
  width : Nat
  height : Nat
deriving DecidableEq, Repr

/-- MSVideoSize from the framework headers: a width and a height. -/
structure MSVideoSize where
  width : Int
  height : Int
deriving DecidableEq, Repr

/-- An mblk_t video frame as the filter observes it: the picture size
obtained by ms_yuv_buf_init_from_mblk, the precious flag, and whether
ms_yuv_buf_init_from_mblk succeeds (returns 0) on it. -/
structure Frame where
  w : Int
  h : Int
  precious : Bool
  yuvOk : Bool
deriving DecidableEq, Repr

/-- struct _FilterData.  The renderer handle (struct opengles_display *)
is an abstract handle id; none models a NULL pointer. -/
structure FilterData where
  context_info : ContextInfo
  display : Option Nat
  video_size : MSVideoSize
  show_video : Bool
  mirroring : Bool
deriving DecidableEq, Repr

/-- ms_new0(FilterData, 1): a freshly allocated, zero-initialized
FilterData (all pointers NULL, all sizes 0, all flags FALSE). -/
def filterDataZero : FilterData :=
  { context_info := ⟨0, 0⟩
    display := none
    video_size := ⟨0, 0⟩
    show_video := false
    mirroring := false }

/-- The MSFilter instance as this file uses it: its private data, its two
input queues (none models a NULL queue pointer, some q a queue holding the
frames of q in enqueue order), and the mutex acquisition counter. -/
structure MSFilter where
  data : FilterData
  inputs0 : Option (List Frame)
  inputs1 : Option (List Frame)
  lock : Nat
deriving DecidableEq, Repr

/-- Observable external calls made by the filter code. -/
inductive Event where
  | displayNew (handle : Nat)
  | displayFree (handle : Option Nat)
  | displayInit (handle : Option Nat) (width height : Nat)
  | setYuv (handle : Option Nat) (fr : Frame)
  | render (handle : Option Nat) (arg : Nat)
  | zoom (handle : Option Nat)
  | mirrorBuf (fr : Frame)
  | logError (msg : String)
  | logMessage (msg : String)
  | freeMem
deriving DecidableEq, Repr

/-- Which events are calls into the opengles_display renderer library. -/
def Event.isRendererCall : Event → Bool
  | .displayNew _ => true
  | .displayFree _ => true
  | .displayInit _ _ _ => true
  | .setYuv _ _ => true
  | .render _ _ => true
  | .zoom _ => true
  | .mirrorBuf _ => false
  | .logError _ => false
  | .logMessage _ => false
  | .freeMem => false

/-- Outcome of the glewInit / GLEW_VERSION_2_0 capability probe in ogl_init;
this is decided by the external GL environment, so it is a parameter. -/
inductive GlewStatus where
  | initFailed
  | noVersion2
  | ok
deriving DecidableEq, Repr

/-- ms_queue_peek_last: the last frame of the queue, NULL when empty. -/
def ms_queue_peek_last (q : List Frame) : Option Frame :=
  q.getLast?

/-- ms_yuv_buf_init_from_mblk: 0 on success, negative on failure; on
success it fills an MSPicture whose w and h are the frame's w and h. -/
def ms_yuv_buf_init_from_mblk (fr : Frame) : Int :=
  if fr.yuvOk then 0 else -1

/-- ogl_init: allocates a zeroed FilterData, runs the glew capability
probe (logging on failure, never aborting), allocates the renderer with
ogl_display_new (the fresh handle is a parameter), sets show_video to
TRUE and installs the data on the filter. -/
def ogl_init (glew : GlewStatus) (handle : Nat) (f : MSFilter) :
    MSFilter × List Event :=
  let data := filterDataZero
  let glewEvents : List Event :=
    match glew with
    | .initFailed => [.logError "glew init error"]
    | .noVersion2 => [.logError "glew 2.0 is required"]
    | .ok => []
  let data := { data with display := some handle }
  let data := { data with show_video := true }
  ({ f with data := data }, glewEvents ++ [Event.displayNew handle])

/-- ogl_uninit, exactly as written in the source: it allocates a fresh
zeroed FilterData with ms_new0 (instead of reading f->data), passes that
fresh struct's NULL display to ogl_display_free, and frees the fresh
struct.  The filter instance f is never touched. -/
def ogl_uninit (f : MSFilter) : MSFilter × List Event :=
  let data := filterDataZero
  (f, [Event.displayFree data.display, Event.freeMem])

/-- ogl_process: under the lock, if a surface is bound (both dimensions
nonzero) and video is shown, peek the last frame of input queue 0; when
it exists and yuv-initializes, store its w then its h into
video_size.width (the double assignment of the source), forward it to the
renderer, and mirror it when mirroring is enabled and the frame is not
precious.  After unlocking, flush both input queues when connected. -/
def ogl_process (f : MSFilter) : MSFilter × List Event :=
  let data := f.data
  let (data2, body) :=
    if data.context_info.width == 0 || data.context_info.height == 0 ||
        !data.show_video then
      (data, ([] : List Event))
    else
      match f.inputs0 with
      | none => (data, [])
      | some q =>
        match ms_queue_peek_last q with
        | none => (data, [])
        | some inm =>
          if ms_yuv_buf_init_from_mblk inm == 0 then
            let vs1 := { data.video_size with width := inm.w }
            let vs2 := { vs1 with width := inm.h }
            let mirrorEvents : List Event :=
              if data.mirroring && !inm.precious then [.mirrorBuf inm] else []
            ({ data with video_size := vs2 },
              Event.setYuv data.display inm :: mirrorEvents)
          else
            (data, [])
  let f2 := { f with data := data2, lock := f.lock + 1 - 1 }
  let f3 := { f2 with inputs0 := f2.inputs0.map (fun _ => []) }
  let f4 := { f3 with inputs1 := f3.inputs1.map (fun _ => []) }
  (f4, body)

/-- ogl_set_video_size: under the lock, store the argument in video_size;
return 0. -/
def ogl_set_video_size (arg : MSVideoSize) (f : MSFilter) :
    MSFilter × List Event × Int :=
  let f1 := { f with lock := f.lock + 1 }
  let f2 := { f1 with data := { f1.data with video_size := arg } }
  let f3 := { f2 with lock := f2.lock - 1 }
  (f3, [], 0)

/-- ogl_set_native_window_id: under the lock, a non-NULL ContextInfo is
logged, copied into context_info, and forwarded to ogl_display_init with
its width and height, unconditionally; NULL memsets context_info to zero.
Returns 0 in both cases. -/
def ogl_set_native_window_id (arg : Option ContextInfo) (f : MSFilter) :
    MSFilter × List Event × Int :=
  let f1 := { f with lock := f.lock + 1 }
  match arg with
  | some context_info =>
    let f2 := { f1 with data := { f1.data with context_info := context_info } }
    let ev : List Event :=
      [.logMessage "set native window id",
        .displayInit f2.data.display context_info.width context_info.height]
    let f3 := { f2 with lock := f2.lock - 1 }
    (f3, ev, 0)
  | none =>
    let f2 := { f1 with data := { f1.data with context_info := ⟨0, 0⟩ } }
    let f3 := { f2 with lock := f2.lock - 1 }
    (f3, [.logMessage "reset native window id"], 0)

/-- ogl_get_native_window_id: does nothing and returns 0. -/
def ogl_get_native_window_id (f : MSFilter) : MSFilter × List Event × Int :=
  (f, [], 0)

/-- ogl_show_video: under the lock, store the flag in show_video;
return 0. -/
def ogl_show_video (arg : Bool) (f : MSFilter) : MSFilter × List Event × Int :=
  let f1 := { f with lock := f.lock + 1 }
  let f2 := { f1 with data := { f1.data with show_video := arg } }
  let f3 := { f2 with lock := f2.lock - 1 }
  (f3, [], 0)

/-- ogl_zoom, exactly as written in the source: ms_filter_lock, forward
the zoom to the renderer, then a second ms_filter_lock (not an unlock);
returns 0 with the mutex acquisition count increased by two. -/
def ogl_zoom (f : MSFilter) : MSFilter × List Event × Int :=
  let f1 := { f with lock := f.lock + 1 }
  let ev : List Event := [.zoom f1.data.display]
  let f2 := { f1 with lock := f1.lock + 1 }
  (f2, ev, 0)

/-- ogl_enable_mirroring, exactly as written in the source:
ms_filter_lock, store the flag in mirroring, then a second ms_filter_lock
(not an unlock); returns 0 with the acquisition count increased by two. -/
def ogl_enable_mirroring (arg : Bool) (f : MSFilter) :
    MSFilter × List Event × Int :=
  let f1 := { f with lock := f.lock + 1 }
  let f2 := { f1 with data := { f1.data with mirroring := arg } }
  let f3 := { f2 with lock := f2.lock + 1 }
  (f3, [], 0)

/-- ogl_call_render: under the lock, call ogl_display_render(display, 0)
when both bound dimensions are positive and video is shown; return 0. -/
def ogl_call_render (f : MSFilter) : MSFilter × List Event × Int :=
  let f1 := { f with lock := f.lock + 1 }
  let ev : List Event :=
    if decide (0 < f1.data.context_info.width) &&
        decide (0 < f1.data.context_info.height) && f1.data.show_video then
      [.render f1.data.display 0]
    else []
  let f2 := { f1 with lock := f1.lock - 1 }
  (f2, ev, 0)

/-- The frames a trace forwards to the renderer via
ogl_display_set_yuv_to_display, in order. -/
def forwardedFrames (evs : List Event) : List Frame :=
  evs.filterMap fun e =>
    match e with
    | .setYuv _ fr => some fr
    | _ => none

/-- One invocation of the host on the filter: a process tick or a
MS_VIDEO_DISPLAY_CALL_GENERIC_RENDER dispatch. -/
inductive Op where
  | processFrame
  | callRender
deriving DecidableEq, Repr

/-- Run one host invocation, keeping its event trace. -/
def runOp : Op → MSFilter → MSFilter × List Event
  | .processFrame, f => ogl_process f
  | .callRender, f =>
    let r := ogl_call_render f
    (r.1, r.2.1)

/-- Run a sequence of host invocations, concatenating the traces. -/
def runOps : List Op → MSFilter → MSFilter × List Event
  | [], f => (f, [])
  | op :: ops, f =>
    let r := runOp op f
    let s := runOps ops r.1
    (s.1, r.2 ++ s.2)

/-- The filter with its video_size field replaced. -/
def setVideoSize (f : MSFilter) (vs : MSVideoSize) : MSFilter :=
  { f with data := { f.data with video_size := vs } }

-- =============================================================================
-- Theorems.
-- =============================================================================

/-- C1: refuted as stated (code bug).  ogl_init allocates the renderer
handle, but ogl_uninit — which reads a freshly zero-allocated FilterData
instead of f->data — passes NULL (none) to ogl_display_free: its whole
trace is a free of the NULL display and a free of the fresh struct, so
the handle allocated by ogl_init is never released. -/
theorem uninit_frees_null_not_init_handle (glew : GlewStatus) (handle : Nat)
    (f : MSFilter) :
    ((ogl_init glew handle f).2).getLast? = some (Event.displayNew handle) ∧
    (ogl_uninit (ogl_init glew handle f).1).2 =
      [Event.displayFree none, Event.freeMem] ∧
    Event.displayFree (some handle) ∉ (ogl_uninit (ogl_init glew handle f).1).2 := by
  refine ⟨?_, rfl, by simp [ogl_uninit, filterDataZero]⟩
  cases glew <;> rfl

/-- C2: refuted as stated (code bug).  ogl_zoom and ogl_enable_mirroring
end with a second ms_filter_lock instead of ms_filter_unlock, so they
return with the instance mutex acquisition count raised by two — the lock
is still held at return — while a correctly paired method such as
ogl_show_video returns with the count unchanged. -/
theorem zoom_and_mirroring_leave_lock_held (f : MSFilter) (b c : Bool) :
    (ogl_zoom f).1.lock = f.lock + 2 ∧
    (ogl_enable_mirroring b f).1.lock = f.lock + 2 ∧
    (ogl_show_video c f).1.lock = f.lock := by
  refine ⟨rfl, rfl, ?_⟩
  simp [ogl_show_video]

/-- C9: the glew capability probe failure in ogl_init only changes the
log trace: the resulting filter is identical to the one a successful
probe builds, with the renderer allocated and show_video TRUE; and every
method of the dispatch table returns the status 0 on every input. -/
theorem probe_failure_swallowed_and_methods_return_zero (glew : GlewStatus)
    (handle : Nat) (f g : MSFilter) (vs : MSVideoSize) (ci : Option ContextInfo)
    (b c : Bool) :
    (ogl_init glew handle f).1 = (ogl_init GlewStatus.ok handle f).1 ∧
    (ogl_init glew handle f).1.data.display = some handle ∧
    (ogl_init glew handle f).1.data.show_video = true ∧
    (ogl_set_video_size vs g).2.2 = 0 ∧
    (ogl_set_native_window_id ci g).2.2 = 0 ∧
    (ogl_get_native_window_id g).2.2 = 0 ∧
    (ogl_show_video b g).2.2 = 0 ∧
    (ogl_zoom g).2.2 = 0 ∧
    (ogl_enable_mirroring c g).2.2 = 0 ∧
    (ogl_call_render g).2.2 = 0 := by
  refine ⟨?_, rfl, rfl, rfl, ?_, rfl, rfl, rfl, rfl, rfl⟩
  · cases glew <;> rfl
  · cases ci <;> rfl

/-- C10: binding any non-NULL surface descriptor — zero-sized ones
included — unconditionally stores its size as the bound context size and
calls ogl_display_init with exactly that width and height. -/
theorem bind_nonnull_stores_size_and_inits_geometry (f : MSFilter)
    (ci : ContextInfo) :
    (ogl_set_native_window_id (some ci) f).1.data.context_info = ci ∧
    Event.displayInit f.data.display ci.width ci.height ∈
      (ogl_set_native_window_id (some ci) f).2.1 := by
  exact ⟨rfl, by simp [ogl_set_native_window_id]⟩

/-- Helper: ogl_process always maps each connected input queue to the
empty queue and keeps NULL queues NULL. -/
theorem ogl_process_flushes (f : MSFilter) :
    (ogl_process f).1.inputs0 = f.inputs0.map (fun _ => ([] : List Frame)) ∧
    (ogl_process f).1.inputs1 = f.inputs1.map (fun _ => ([] : List Frame)) := by
  unfold ogl_process
  dsimp only
  exact ⟨rfl, rfl⟩

/-- C6: whatever the bound/visible state and whatever got forwarded, a
process tick leaves every connected input queue empty: each queue that
was connected (some) is some [] afterwards, and a NULL queue stays
NULL. -/
theorem process_drains_both_queues (f : MSFilter) :
    (ogl_process f).1.inputs0 = f.inputs0.map (fun _ => ([] : List Frame)) ∧
    (ogl_process f).1.inputs1 = f.inputs1.map (fun _ => ([] : List Frame)) :=
  ogl_process_flushes f

/-- Helper: when unbound in either dimension or hidden, ogl_process emits
no events at all. -/
theorem ogl_process_silent (f : MSFilter)
    (h : f.data.context_info.width = 0 ∨ f.data.context_info.height = 0 ∨
      f.data.show_video = false) :
    (ogl_process f).2 = [] := by
  have hguard : (f.data.context_info.width == 0 ||
      f.data.context_info.height == 0 || !f.data.show_video) = true := by
    rcases h with h | h | h <;> simp [h]
  unfold ogl_process
  dsimp only
  rw [if_pos hguard]

/-- Helper: when unbound in either dimension or hidden, ogl_call_render
emits no events at all. -/
theorem ogl_call_render_silent (f : MSFilter)
    (h : f.data.context_info.width = 0 ∨ f.data.context_info.height = 0 ∨
      f.data.show_video = false) :
    (ogl_call_render f).2.1 = [] := by
  unfold ogl_call_render
  dsimp only
  rcases h with h | h | h <;> simp [h]

/-- C4: whenever the bound context width is zero, or its height is zero,
or show_video is FALSE, neither a process tick nor a render dispatch
makes any call into the renderer. -/
theorem no_renderer_call_when_unbound_or_hidden (f : MSFilter)
    (h : f.data.context_info.width = 0 ∨ f.data.context_info.height = 0 ∨
      f.data.show_video = false) :
    ((ogl_process f).2).filter Event.isRendererCall = [] ∧
    ((ogl_call_render f).2.1).filter Event.isRendererCall = [] := by
  rw [ogl_process_silent f h, ogl_call_render_silent f h]
  exact ⟨rfl, rfl⟩

/-- Three non-precious frames that yuv-initialize, in enqueue order. -/
def frA : Frame := { w := 320, h := 240, precious := false, yuvOk := true }

/-- Second sample frame. -/
def frB : Frame := { w := 640, h := 360, precious := false, yuvOk := true }

/-- Third (last-queued) sample frame. -/
def frC : Frame := { w := 1280, h := 720, precious := false, yuvOk := true }

/-- A bound, visible, mirroring filter whose first input queue holds
frA, frB, frC in enqueue order. -/
def boundFilter : MSFilter :=
  { data := { context_info := ⟨800, 600⟩
              display := some 1
              video_size := ⟨0, 0⟩
              show_video := true
              mirroring := true }
    inputs0 := some [frA, frB, frC]
    inputs1 := some []
    lock := 0 }

/-- A filter still at the zeroed bound size, with video shown and a frame
queued. -/
def unboundFilter : MSFilter :=
  { data := { filterDataZero with display := some 2, show_video := true }
    inputs0 := some [frA]
    inputs1 := none
    lock := 0 }

/-- C4 witness: with a bound size of 0 x 0, a process tick on a filter
holding a queued frame and a render dispatch both stay silent. -/
theorem no_renderer_call_when_unbound_or_hidden_witness :
    (unboundFilter.data.context_info.width = 0 ∨
      unboundFilter.data.context_info.height = 0 ∨
      unboundFilter.data.show_video = false) ∧
    ((ogl_process unboundFilter).2).filter Event.isRendererCall = [] ∧
    ((ogl_call_render unboundFilter).2.1).filter Event.isRendererCall = [] :=
  ⟨Or.inl rfl, no_renderer_call_when_unbound_or_hidden unboundFilter (Or.inl rfl)⟩

/-- Helper: on a bound, visible filter whose first queue peeks a
yuv-valid last frame, ogl_process forwards exactly that frame, mirrors it
exactly when mirroring is set and the frame is not precious, and writes
the frame's height into video_size.width leaving video_size.height
untouched. -/
theorem ogl_process_forward (f : MSFilter) (q : List Frame) (inm : Frame)
    (hw : f.data.context_info.width ≠ 0)
    (hh : f.data.context_info.height ≠ 0)
    (hs : f.data.show_video = true)
    (hq : f.inputs0 = some q)
    (hlast : ms_queue_peek_last q = some inm)
    (hy : inm.yuvOk = true) :
    (ogl_process f).2 = Event.setYuv f.data.display inm ::
      (if f.data.mirroring && !inm.precious then [Event.mirrorBuf inm]
        else []) ∧
    (ogl_process f).1.data.video_size =
      ⟨inm.h, f.data.video_size.height⟩ := by
  unfold ogl_process
  dsimp only
  rw [if_neg (by simp [hw, hh, hs]), hq]
  dsimp only
  rw [hlast]
  dsimp only
  rw [if_pos (by simp [ms_yuv_buf_init_from_mblk, hy])]
  exact ⟨rfl, rfl⟩

/-- C3: on a bound, visible filter whose first input queue holds
[F1, F2, F3], one process tick forwards exactly the last-queued F3 to the
renderer and leaves the queue empty. -/
theorem process_forwards_only_last_frame (f : MSFilter) (F1 F2 F3 : Frame)
    (hw : f.data.context_info.width ≠ 0)
    (hh : f.data.context_info.height ≠ 0)
    (hs : f.data.show_video = true)
    (hq : f.inputs0 = some [F1, F2, F3])
    (hy : F3.yuvOk = true) :
    forwardedFrames (ogl_process f).2 = [F3] ∧
    (ogl_process f).1.inputs0 = some [] := by
  refine ⟨?_, by simp [(ogl_process_flushes f).1, hq]⟩
  rw [(ogl_process_forward f [F1, F2, F3] F3 hw hh hs hq rfl hy).1]
  dsimp only [forwardedFrames]
  split <;> rfl

/-- C3 witness: the bound sample filter with queue [frA, frB, frC]
forwards frC alone and drains the queue. -/
theorem process_forwards_only_last_frame_witness :
    forwardedFrames (ogl_process boundFilter).2 = [frC] ∧
    (ogl_process boundFilter).1.inputs0 = some [] :=
  process_forwards_only_last_frame boundFilter frA frB frC (by decide)
    (by decide) rfl rfl rfl

/-- C5: for a frame forwarded by a process tick, the mirroring pass runs
on it exactly when the mirroring flag is set and the frame's precious
marker is unset. -/
theorem mirroring_applied_iff_flag_and_not_precious (f : MSFilter)
    (q : List Frame) (fr : Frame)
    (hw : f.data.context_info.width ≠ 0)
    (hh : f.data.context_info.height ≠ 0)
    (hs : f.data.show_video = true)
    (hq : f.inputs0 = some q)
    (hlast : ms_queue_peek_last q = some fr)
    (hy : fr.yuvOk = true) :
    fr ∈ forwardedFrames (ogl_process f).2 ∧
    (Event.mirrorBuf fr ∈ (ogl_process f).2 ↔
      f.data.mirroring = true ∧ fr.precious = false) := by
  rw [(ogl_process_forward f q fr hw hh hs hq hlast hy).1]
  constructor
  · dsimp only [forwardedFrames]
    split <;> simp
  · by_cases hc : (f.data.mirroring && !fr.precious) = true
    · rw [if_pos hc]
      simp only [Bool.and_eq_true, Bool.not_eq_true'] at hc
      simp [hc]
    · rw [if_neg hc]
      simp only [Bool.and_eq_true, Bool.not_eq_true'] at hc
      simp [hc]

/-- C5 witness: on the bound mirroring sample filter, frC is forwarded
and the mirror pass runs, the flag being set and frC not precious. -/
theorem mirroring_applied_iff_witness :
    frC ∈ forwardedFrames (ogl_process boundFilter).2 ∧
    (Event.mirrorBuf frC ∈ (ogl_process boundFilter).2 ↔
      boundFilter.data.mirroring = true ∧ frC.precious = false) :=
  mirroring_applied_iff_flag_and_not_precious boundFilter [frA, frB, frC]
    frC (by decide) (by decide) rfl rfl rfl rfl

/-- Helper: a process tick never changes the bound context size. -/
theorem ogl_process_keeps_context (f : MSFilter) :
    (ogl_process f).1.data.context_info = f.data.context_info := by
  unfold ogl_process
  dsimp only
  split
  · rfl
  · cases f.inputs0 with
    | none => rfl
    | some q =>
      dsimp only
      cases ms_queue_peek_last q with
      | none => rfl
      | some inm =>
        dsimp only
        split <;> rfl

/-- Helper: a render dispatch changes nothing but the lock counter. -/
theorem ogl_call_render_keeps_data (f : MSFilter) :
    (ogl_call_render f).1.data = f.data := rfl

/-- Helper: once the bound width is zero, any sequence of process ticks
and render dispatches emits no renderer call and keeps the width zero. -/
theorem runOps_silent_of_zero_width (ops : List Op) (f : MSFilter)
    (h : f.data.context_info.width = 0) :
    ((runOps ops f).2).filter Event.isRendererCall = [] ∧
    (runOps ops f).1.data.context_info.width = 0 := by
  induction ops generalizing f with
  | nil => exact ⟨rfl, h⟩
  | cons op ops ih =>
    cases op with
    | processFrame =>
      have hks : (ogl_process f).1.data.context_info.width = 0 := by
        rw [ogl_process_keeps_context f]; exact h
      have hsilent := ogl_process_silent f (Or.inl h)
      have ihr := ih (ogl_process f).1 hks
      unfold runOps runOp
      dsimp only
      rw [List.filter_append, hsilent, ihr.1]
      exact ⟨rfl, ihr.2⟩
    | callRender =>
      have hks : (ogl_call_render f).1.data.context_info.width = 0 := by
        rw [ogl_call_render_keeps_data f]; exact h
      have hsilent := ogl_call_render_silent f (Or.inl h)
      have ihr := ih (ogl_call_render f).1 hks
      unfold runOps runOp
      dsimp only
      rw [List.filter_append, hsilent, ihr.1]
      exact ⟨rfl, ihr.2⟩

/-- C7: unbinding with a NULL descriptor zeroes both dimensions of the
stored context size, and from then on any sequence of process ticks and
render dispatches — with no rebind among them — makes no renderer
call. -/
theorem unbind_zeroes_size_and_silences_until_rebind (f : MSFilter)
    (ops : List Op) :
    (ogl_set_native_window_id none f).1.data.context_info = ⟨0, 0⟩ ∧
    ((runOps ops (ogl_set_native_window_id none f).1).2).filter
      Event.isRendererCall = [] := by
  exact ⟨rfl, (runOps_silent_of_zero_width ops _ rfl).1⟩

/-- Helper: the event trace of a process tick does not depend on the
stored video_size. -/
theorem ogl_process_ignores_video_size (f : MSFilter) (vs : MSVideoSize) :
    (ogl_process (setVideoSize f vs)).2 = (ogl_process f).2 := by
  unfold ogl_process setVideoSize
  dsimp only
  by_cases hg : (f.data.context_info.width == 0 ||
      f.data.context_info.height == 0 || !f.data.show_video) = true
  · rw [if_pos hg, if_pos hg]
  · rw [if_neg hg, if_neg hg]
    cases f.inputs0 with
    | none => rfl
    | some q =>
      dsimp only
      cases ms_queue_peek_last q with
      | none => rfl
      | some inm =>
        dsimp only
        by_cases hy : (ms_yuv_buf_init_from_mblk inm == 0) = true
        · rw [if_pos hy, if_pos hy]
        · rw [if_neg hy, if_neg hy]

/-- Helper: the event trace of a render dispatch does not depend on the
stored video_size. -/
theorem ogl_call_render_ignores_video_size (f : MSFilter)
    (vs : MSVideoSize) :
    (ogl_call_render (setVideoSize f vs)).2.1 = (ogl_call_render f).2.1 := by
  unfold ogl_call_render setVideoSize
  dsimp only

/-- C8: video_size is dead state.  When a process tick forwards a frame,
it ends with the frame's height in video_size.width (the source assigns
src.w then src.h to the width sub-field) and leaves video_size.height
untouched; and replacing video_size by anything changes neither the
process trace nor the render trace, so no renderer call ever reads it. -/
theorem video_size_is_dead_state (f : MSFilter) (q : List Frame)
    (fr : Frame) (vs : MSVideoSize)
    (hw : f.data.context_info.width ≠ 0)
    (hh : f.data.context_info.height ≠ 0)
    (hs : f.data.show_video = true)
    (hq : f.inputs0 = some q)
    (hlast : ms_queue_peek_last q = some fr)
    (hy : fr.yuvOk = true) :
    (ogl_process f).1.data.video_size =
      ⟨fr.h, f.data.video_size.height⟩ ∧
    (ogl_process (setVideoSize f vs)).2 = (ogl_process f).2 ∧
    (ogl_call_render (setVideoSize f vs)).2.1 =
      (ogl_call_render f).2.1 :=
  ⟨(ogl_process_forward f q fr hw hh hs hq hlast hy).2,
    ogl_process_ignores_video_size f vs,
    ogl_call_render_ignores_video_size f vs⟩

/-- C8 witness: processing the bound sample filter leaves
video_size = (720, 0) — frC's height in the width sub-field — and an
arbitrary replacement video_size (11, 22) leaves both traces
unchanged. -/
theorem video_size_is_dead_state_witness :
    (ogl_process boundFilter).1.data.video_size =
      ⟨frC.h, boundFilter.data.video_size.height⟩ ∧
    (ogl_process (setVideoSize boundFilter ⟨11, 22⟩)).2 =
      (ogl_process boundFilter).2 ∧
    (ogl_call_render (setVideoSize boundFilter ⟨11, 22⟩)).2.1 =
      (ogl_call_render boundFilter).2.1 :=
  video_size_is_dead_state boundFilter [frA, frB, frC] frC ⟨11, 22⟩
    (by decide) (by decide) rfl rfl rfl rfl

end OglDisplay
